import Mathlib

/-!
Verification of the cursor-sync synchronization engine.

This file gives a shallow embedding, in Lean 4, of the parts of the
cursor-sync Go program that its specification talks about, and proves (or
refutes) the specified properties against that embedding.  Each definition
is a direct translation of a function from the Go source; the comment on a
definition names the file and function it embeds.  External effects
(filesystem walks, the network, the worker-pool channels) are made explicit
as parameters: a walk becomes a list of paths, an HTTP response becomes its
status code and decoded body, a channel interaction becomes the boolean
outcome the code branches on.  Machine strings are modelled as lists of
characters where substring structure matters and as Lean strings elsewhere;
Go durations (int64 nanoseconds) are modelled as integers.
-/

namespace CursorSync

/-! ## Path policy (internal/sync/sync.go, shouldExcludePath and friends) -/

/-- Relative paths and glob patterns, as character lists (Go strings). -/
abbrev Path := List Char

/-- The first-sync marker suffix checked by shouldExcludePath
(sync.go line 980: strings.HasSuffix(path, ".custom.sync")). -/
def markerSuffix : Path := ".custom.sync".data

/-- The recursive-glob token (sync.go line 986: strings.Contains(excludePattern, "**")). -/
def doubleStar : Path := "**".data

/-- Go strings.ReplaceAll(pattern, "**", ""): scan left to right, dropping
every non-overlapping occurrence of two adjacent stars
(sync.go line 1008). -/
def removeDoubleStar : Path → Path
  | '*' :: '*' :: rest => removeDoubleStar rest
  | c :: rest => c :: removeDoubleStar rest
  | [] => []

/-- Syncer.matchesRecursivePattern (sync.go lines 1002-1018): with the
recursive-glob token removed, a pattern ending in a slash matches any path
containing it as a substring; otherwise the path must end with the
remainder or contain the remainder followed by a slash. -/
def matchesRecursivePattern (path pattern : Path) : Bool :=
  let cleanPattern := removeDoubleStar pattern
  if ['/'] <:+ cleanPattern then
    decide (cleanPattern <:+: path)
  else
    decide (cleanPattern <:+ path) || decide ((cleanPattern ++ ['/']) <:+: path)

/-- Syncer.shouldExcludePath (sync.go lines 978-999).  The marker suffix is
tested before the configured patterns.  Go's filepath.Match (an external
library routine the code calls for patterns without the recursive-glob
token) is passed in as the parameter globMatch. -/
def shouldExcludePath (globMatch : Path → Path → Bool)
    (excludePaths : List Path) (path : Path) : Bool :=
  if markerSuffix <:+ path then true
  else
    excludePaths.any fun pat =>
      if doubleStar <:+: pat then matchesRecursivePattern path pat
      else globMatch pat path || decide (pat <+: path)

/-! ## Rsync-mode copy decision (internal/sync/sync.go, shouldCopyFile) -/

/-- Failure modes of the polling hash computation (sync.go lines 864-887):
the underlying read fails, or the polling loop exhausts its timeout. -/
inductive HashErr where
  | unreadable
  | timeout
deriving DecidableEq

/-- Syncer.shouldCopyFile (sync.go lines 729-767).  The stat of the
destination is passed as an optional size (none: the destination does not
exist); the outcomes of the two polling hash computations the code would
perform are passed as Except values. -/
def shouldCopyFile (srcSize : Nat) (destSize : Option Nat)
    (srcHash destHash : Except HashErr String) : Bool :=
  match destSize with
  | none => true
  | some d =>
    if srcSize ≠ d then true
    else
      match srcHash with
      | .error _ => true
      | .ok sh =>
        match destHash with
        | .error _ => true
        | .ok dh => sh ≠ dh

/-! ## Privacy gate (internal/privacy/privacy.go, internal/sync/sync.go) -/

/-- RepositoryChecker.checkGitHubRepositoryPrivacy (privacy.go lines
51-96).  The HTTP exchange is explicit: tokenPresent records whether
loadGitHubToken succeeded (it only adds an Authorization header to the
request), status is the response status code, and bodyPrivate is the
decoded private field of the response body (none: the body failed to
decode).  The result is the Go pair (bool, error). -/
def checkGitHubRepositoryPrivacy (tokenPresent : Bool) (status : Nat)
    (bodyPrivate : Option Bool) : Except String Bool :=
  let _ := tokenPresent
  if status = 404 then
    Except.ok true
  else if status ≠ 200 then
    Except.error "GitHub API returned status code"
  else
    match bodyPrivate with
    | none => Except.error "failed to decode repository info"
    | some b => Except.ok b

/-- Syncer.checkRepositoryPrivacy (sync.go lines 1066-1084): the caller
aborts the sync with an error when the check errs or concludes public, and
proceeds only on a private verdict. -/
def checkRepositoryPrivacyGate (r : Except String Bool) : Except String Unit :=
  match r with
  | .error _ => Except.error "cannot verify repository privacy - sync blocked for security"
  | .ok false => Except.error "public repository detected - sync blocked for security"
  | .ok true => Except.ok ()

/-! ## SyncFromRemote control flow (internal/sync/sync.go, lines 243-304) -/

/-- The externally visible steps of Syncer.SyncFromRemote, in program
order. -/
inductive SyncAction where
  | privacyCheck
  | pullAttempt
  | resolveConflicts
  | deletionPropagate
  | mirrorCopy
  | writeMarker
deriving DecidableEq

/-- Syncer.SyncFromRemote (sync.go lines 243-304) as the ordered list of
steps it performs, plus whether it returns without error.  The booleans are
the outcomes of the effectful calls the code branches on: the privacy gate,
the first pull, ResolveConflicts, the retried pull, and
copyFromRepository. -/
def syncFromRemoteTrace (privacyOk pull1Ok resolveOk pull2Ok copyOk : Bool) :
    List SyncAction × Bool :=
  if privacyOk = false then ([SyncAction.privacyCheck], false)
  else
    let pulls : List SyncAction × Bool :=
      if pull1Ok then ([SyncAction.pullAttempt], true)
      else if resolveOk then
        ([SyncAction.pullAttempt, SyncAction.resolveConflicts, SyncAction.pullAttempt],
          pull2Ok)
      else ([SyncAction.pullAttempt, SyncAction.resolveConflicts], false)
    let dels := if pulls.2 then [SyncAction.deletionPropagate] else []
    let tail : List SyncAction × Bool :=
      if copyOk then ([SyncAction.mirrorCopy, SyncAction.writeMarker], true)
      else ([SyncAction.mirrorCopy], false)
    (SyncAction.privacyCheck :: pulls.1 ++ dels ++ tail.1, tail.2)

/-! ## Initialize control flow (internal/sync/sync.go, lines 80-131) -/

/-- The externally visible steps of Syncer.Initialize and of the
SyncToRemote call it makes on the clone path. -/
inductive InitAction where
  | privacyCheck
  | openRepo
  | cloneRepo
  | bootstrapEmptyRemote
  | forceCopyFromRepo
  | deletePropagateLocalToRepo
  | copyToRepo
  | commitLocal
  | pushRemote
  | writeMarker
deriving DecidableEq

/-- The host state Initialize inspects: whether a .git directory already
exists at the working-copy path (sync.go line 89), whether the first-sync
marker is present (line 98), and whether HasChanges reports uncommitted
changes after the user scope is copied into the repository
(sync.go line 153). -/
structure InitState where
  gitDirExists : Bool
  markerPresent : Bool
  hasChanges : Bool
deriving DecidableEq

/-- How Repository.Clone returned on the clone path of Initialize: an
ordinary clone of a non-empty remote, a clone that ran the empty-remote
bootstrap internally (git.go lines 89-97), or a failure. -/
inductive CloneResult where
  | clonedNonEmpty
  | bootstrappedEmpty
  | failed
deriving DecidableEq

/-- Syncer.SyncToRemote (sync.go lines 134-240) abridged to its externally
visible steps: privacy gate, deletion propagation local-to-mirror, the
rsync copy user-scope-to-mirror, then — when HasChanges holds — commit and
push, and finally the marker write. -/
def syncToRemoteActs (hasChanges : Bool) : List InitAction :=
  [InitAction.privacyCheck, InitAction.deletePropagateLocalToRepo, InitAction.copyToRepo]
    ++ (if hasChanges then [InitAction.commitLocal, InitAction.pushRemote] else [])
    ++ [InitAction.writeMarker]

/-- Syncer.Initialize (sync.go lines 80-131) as the ordered list of steps
it performs.  When the .git directory exists the repository is opened and,
with the marker absent, the force copy from the repository runs and the
marker is written (lines 89-114).  When it does not exist, Clone runs and —
whether or not the clone bootstrapped an empty remote — Initialize then
calls SyncToRemote and writes the marker (lines 116-131). -/
def initializeTrace (st : InitState) (clone : CloneResult) : List InitAction :=
  InitAction.privacyCheck ::
    (if st.gitDirExists then
      InitAction.openRepo ::
        (if st.markerPresent then []
        else [InitAction.forceCopyFromRepo, InitAction.writeMarker])
    else
      InitAction.cloneRepo ::
        (match clone with
        | CloneResult.failed => []
        | CloneResult.bootstrappedEmpty =>
          InitAction.bootstrapEmptyRemote ::
            (syncToRemoteActs st.hasChanges ++ [InitAction.writeMarker])
        | CloneResult.clonedNonEmpty =>
          syncToRemoteActs st.hasChanges ++ [InitAction.writeMarker]))

/-- Syncer.copyFromRepositoryForce (sync.go lines 607-664) at the level of
file contents: the user scope after the copy, as a map from relative path
to content.  Every file of the repository overwrites the local file at the
same relative path; a local file with no counterpart in the repository is
left untouched (the function deletes nothing). -/
def copyFromRepositoryForce (repo localFs : Path → Option String) :
    Path → Option String :=
  fun p =>
    match repo p with
    | some content => some content
    | none => localFs p

/-! ## Clone and retry (internal/git/git.go) -/

/-- The on-disk content of the working-copy directory: relative file paths
with their contents. -/
abbrev DirTree := List (String × String)

/-- Repository.Clone (git.go lines 57-114) as a transition on the
working-copy directory.  pre is the directory before the call (none: no
entry on disk); fetch is the outcome of the network clone.  Lines 62-66
remove the existing directory unconditionally when present (whether or not
it is a Git repository); line 69 recreates it empty; on a failed fetch the
error propagates with the directory left freshly emptied. -/
def cloneFS (pre : Option DirTree) (fetch : Except String DirTree) :
    Option DirTree × Except String Unit :=
  let removed : Option DirTree := if pre.isSome then none else pre
  let created : DirTree := match removed with
    | none => []
    | some t => t
  match fetch with
  | .ok t => (some t, Except.ok ())
  | .error e => (some created, Except.error e)

/-- Per-attempt outcome of the network clone inside the retry loop
(git.go lines 265-287). -/
inductive CloneOutcome where
  | success
  | emptyRemote
  | otherError
deriving DecidableEq

/-- How retryCloneWithBackoff ended. -/
inductive RetryResult where
  | cloned (attempt : Nat)
  | bootstrapped (attempt : Nat)
  | failed
deriving DecidableEq

/-- The delay slept after failed attempt k (git.go lines 294-298):
delay := attempt * baseDelay with baseDelay = 2 s, capped at
maxDelay = 10 s.  In seconds. -/
def cloneRetryDelay (attempt : Nat) : Nat :=
  let delay := attempt * 2
  if delay > 10 then 10 else delay

/-- The loop body of Repository.retryCloneWithBackoff (git.go lines
256-305): attempts are numbered from 1; success returns; an empty-remote
error runs the empty-remote bootstrap; any other error sleeps and retries
until attempt 5.  fuel is the number of loop iterations left
(maxRetries - attempt + 1); the list collects the delays slept. -/
def retryCloneAux (outcomes : Nat → CloneOutcome) :
    Nat → Nat → RetryResult × List Nat
  | 0, _ => (RetryResult.failed, [])
  | fuel + 1, attempt =>
    match outcomes attempt with
    | CloneOutcome.success => (RetryResult.cloned attempt, [])
    | CloneOutcome.emptyRemote => (RetryResult.bootstrapped attempt, [])
    | CloneOutcome.otherError =>
      if attempt = 5 then (RetryResult.failed, [])
      else
        let rest := retryCloneAux outcomes fuel (attempt + 1)
        (rest.1, cloneRetryDelay attempt :: rest.2)

/-- Repository.retryCloneWithBackoff (git.go lines 256-305): maxRetries = 5
attempts starting at attempt 1. -/
def retryCloneWithBackoff (outcomes : Nat → CloneOutcome) : RetryResult × List Nat :=
  retryCloneAux outcomes 5 1

/-- Modelled from the spec: the delay before retry attempt k+1 under
"exponential backoff (base 2 s, cap 10 s)" — the base delay doubled once
per completed attempt, capped.  In seconds.  Stated only to be compared
with cloneRetryDelay, the delay the source actually computes. -/
def expBackoffDelaySpec (attempt : Nat) : Nat :=
  min (2 * 2 ^ (attempt - 1)) 10

/-! ## Configuration validation (internal/config/config.go, lines 245-275) -/

/-- One second of Go time.Duration (time.Duration is a count of
nanoseconds; durations are modelled as Int). -/
def goSecond : Int := 1000000000

/-- The configuration fields validate inspects (config.go lines 17-47). -/
structure Config where
  repoURL : String
  repoLocalPath : String
  branch : String
  cursorConfigPath : String
  pullInterval : Int
  pushInterval : Int
  debounceTime : Int
  conflictResolve : String
deriving DecidableEq

/-- The distinct errors validate can return, one per fmt.Errorf site
(config.go lines 245-275). -/
inductive ConfigError where
  | missingURL
  | missingLocalPath
  | missingConfigPath
  | nonPositivePullInterval
  | nonPositivePushInterval
  | debounceTooShort
  | badConflictResolve
deriving DecidableEq

/-- validate (config.go lines 245-275), the checks in source order.  Load
(lines 59-106) returns no Config whenever validate errs. -/
def validate (cfg : Config) : Except ConfigError Unit :=
  if cfg.repoURL = "" then Except.error ConfigError.missingURL
  else if cfg.repoLocalPath = "" then Except.error ConfigError.missingLocalPath
  else if cfg.cursorConfigPath = "" then Except.error ConfigError.missingConfigPath
  else if cfg.pullInterval ≤ 0 then Except.error ConfigError.nonPositivePullInterval
  else if cfg.pushInterval ≤ 0 then Except.error ConfigError.nonPositivePushInterval
  else if cfg.debounceTime < 10 * goSecond then Except.error ConfigError.debounceTooShort
  else if cfg.conflictResolve ≠ "newer" ∧ cfg.conflictResolve ≠ "local"
      ∧ cfg.conflictResolve ≠ "remote" then
    Except.error ConfigError.badConflictResolve
  else Except.ok ()

/-! ## Hash cache (internal/sync/sync.go, lines 770-827) -/

/-- Syncer.calculateFileHash together with calculateFileHashParallel
(sync.go lines 770-814) as a transition on the hash cache.  hashFn stands
for hex(SHA-256); content is the outcome of reading the file (the worker's
os.ReadFile, with result-wait timeouts surfacing as errors the same way);
channelFull is whether the job channel was full, in which case the code
falls back to calculateSingleFileHash, which does not write the cache.
Returns the result handed to the caller and the cache afterwards. -/
def calculateFileHash (hashFn : String → String) (cache : List (String × String))
    (p : String) (content : Except HashErr String) (channelFull : Bool) :
    Except HashErr String × List (String × String) :=
  match List.lookup p cache with
  | some h => (Except.ok h, cache)
  | none =>
    match content with
    | .error e => (Except.error e, cache)
    | .ok data =>
      let h := hashFn data
      if channelFull then (Except.ok h, cache)
      else (Except.ok h, (p, h) :: cache)

end CursorSync

namespace CursorSync

/-- Claim C3: any path whose name ends with the marker suffix ".custom.sync"
is excluded by the path policy, whatever the configured exclude patterns and
whatever the glob matcher does; hence the marker is never mirrored into the
remote. -/
theorem marker_suffix_always_excluded
    (globMatch : Path → Path → Bool) (excludePaths : List Path) (path : Path)
    (h : markerSuffix <:+ path) :
    shouldExcludePath globMatch excludePaths path = true := by
  unfold shouldExcludePath
  simp [h]

/-- Witness for C3 at a concrete path and pattern list. -/
theorem marker_suffix_always_excluded_w :
    shouldExcludePath (fun _ _ => false) ["settings.json".data] ".custom.sync".data = true :=
  marker_suffix_always_excluded (fun _ _ => false) ["settings.json".data]
    ".custom.sync".data (by decide)

/-- Claim C6: for a pattern containing the recursive-glob token, the path is
excluded by matchesRecursivePattern exactly as the specification describes:
if the pattern with the token removed ends with a slash, match iff the path
contains the remainder as a substring; otherwise match iff the path ends
with the remainder or contains the remainder followed by a slash. -/
theorem matches_recursive_pattern_spec (path pattern : Path)
    (_hstar : doubleStar <:+: pattern) :
    (['/'] <:+ removeDoubleStar pattern →
      (matchesRecursivePattern path pattern = true ↔
        removeDoubleStar pattern <:+: path))
    ∧ (¬ ['/'] <:+ removeDoubleStar pattern →
      (matchesRecursivePattern path pattern = true ↔
        (removeDoubleStar pattern <:+ path ∨
          (removeDoubleStar pattern ++ ['/']) <:+: path))) := by
  constructor
  · intro h
    simp [matchesRecursivePattern, h]
  · intro h
    simp [matchesRecursivePattern, h]

/-- Witness for C6: pattern with the recursive-glob token, no trailing
slash, matched against a concrete path. -/
theorem matches_recursive_pattern_spec_w :
    (['/'] <:+ removeDoubleStar "**/node_modules".data →
      (matchesRecursivePattern "a/node_modules".data "**/node_modules".data = true ↔
        removeDoubleStar "**/node_modules".data <:+: "a/node_modules".data))
    ∧ (¬ ['/'] <:+ removeDoubleStar "**/node_modules".data →
      (matchesRecursivePattern "a/node_modules".data "**/node_modules".data = true ↔
        (removeDoubleStar "**/node_modules".data <:+ "a/node_modules".data ∨
          (removeDoubleStar "**/node_modules".data ++ ['/']) <:+: "a/node_modules".data))) :=
  matches_recursive_pattern_spec "a/node_modules".data "**/node_modules".data (by decide)

/-- Claim C4: in rsync mode a file is copied if and only if the destination
does not exist, or the sizes differ, or the sizes agree but the content
comparison treats the pair as different — the hashes differ, or computing
either hash failed (unreadable file or polling timeout), which forces a
conservative copy. -/
theorem should_copy_file_iff (srcSize : Nat) (destSize : Option Nat)
    (srcHash destHash : Except HashErr String) :
    shouldCopyFile srcSize destSize srcHash destHash = true ↔
      (destSize = none
        ∨ (∃ d, destSize = some d ∧ srcSize ≠ d)
        ∨ (∃ d, destSize = some d ∧ srcSize = d ∧
            ((∃ e, srcHash = Except.error e)
              ∨ (∃ e, destHash = Except.error e)
              ∨ (∃ sh dh, srcHash = Except.ok sh ∧ destHash = Except.ok dh ∧ sh ≠ dh)))) := by
  cases destSize with
  | none => simp [shouldCopyFile]
  | some d =>
    by_cases hsz : srcSize = d
    · cases srcHash with
      | error e => simp [shouldCopyFile, hsz]
      | ok sh =>
        cases destHash with
        | error e => simp [shouldCopyFile, hsz]
        | ok dh =>
          by_cases hh : sh = dh <;> simp [shouldCopyFile, hsz, hh]
    · simp [shouldCopyFile, hsz]

/-- Counterexample to claim C2 as stated: with no access token present and
an HTTP 404 from the repository-metadata endpoint, the privacy check
concludes private (not indeterminate) and the caller proceeds instead of
aborting. -/
theorem privacy_404_no_token_not_blocked :
    checkGitHubRepositoryPrivacy false 404 none = Except.ok true
    ∧ checkRepositoryPrivacyGate (checkGitHubRepositoryPrivacy false 404 none)
        = Except.ok () := by
  constructor <;> rfl

/-- Claim C2 (amended): on an HTTP 404 the privacy check concludes private
regardless of token presence and of the response body, and the caller does
not block. -/
theorem privacy_404_treated_private (tokenPresent : Bool) (bodyPrivate : Option Bool) :
    checkGitHubRepositoryPrivacy tokenPresent 404 bodyPrivate = Except.ok true
    ∧ checkRepositoryPrivacyGate
        (checkGitHubRepositoryPrivacy tokenPresent 404 bodyPrivate) = Except.ok () := by
  constructor <;> rfl

/-- Claim C5: in SyncFromRemote under a passing privacy gate, the
deletion-propagation step (removing local files absent from the working
copy) appears in the trace exactly when the pull succeeded — directly or
after conflict resolution and a retried pull — while the mirror copy from
the working copy into the user scope runs in every case, pull failure or
not. -/
theorem sync_from_remote_deletion_gated :
    ∀ pull1Ok resolveOk pull2Ok copyOk : Bool,
      (SyncAction.deletionPropagate
          ∈ (syncFromRemoteTrace true pull1Ok resolveOk pull2Ok copyOk).1
        ↔ (pull1Ok = true ∨ (resolveOk = true ∧ pull2Ok = true)))
      ∧ SyncAction.mirrorCopy
          ∈ (syncFromRemoteTrace true pull1Ok resolveOk pull2Ok copyOk).1 := by
  decide

/-- Counterexample to claim C1 as stated: on a host with no working copy
(so Clone runs) and no marker, after a successful clone of a non-empty
remote Initialize runs SyncToRemote — pushing a commit when the user scope
differs from the remote — and never performs the force copy from the
repository. -/
theorem initialize_fresh_clone_pushes :
    InitAction.pushRemote
        ∈ initializeTrace ⟨false, false, true⟩ CloneResult.clonedNonEmpty
      ∧ InitAction.forceCopyFromRepo
        ∉ initializeTrace ⟨false, false, true⟩ CloneResult.clonedNonEmpty := by
  decide

/-- Claim C1 (amended): the bootstrap-from-remote path runs when the
working copy already exists on disk and the marker is absent: Initialize
then opens the repository, force-copies it into the user scope, and writes
the marker — no commit is pushed; and the force copy overwrites local files
from the repository without deleting any local file absent from it. -/
theorem initialize_bootstrap_from_remote
    (st : InitState) (clone : CloneResult) (repo localFs : Path → Option String)
    (p : Path) (c : String)
    (hgit : st.gitDirExists = true) (hmark : st.markerPresent = false) :
    initializeTrace st clone
        = [InitAction.privacyCheck, InitAction.openRepo,
           InitAction.forceCopyFromRepo, InitAction.writeMarker]
      ∧ InitAction.pushRemote ∉ initializeTrace st clone
      ∧ (repo p = some c → copyFromRepositoryForce repo localFs p = some c)
      ∧ (copyFromRepositoryForce repo localFs p = none → localFs p = none) := by
  refine ⟨?_, ?_, ?_, ?_⟩
  · simp [initializeTrace, hgit, hmark]
  · simp [initializeTrace, hgit, hmark]
  · intro h
    simp [copyFromRepositoryForce, h]
  · intro h
    unfold copyFromRepositoryForce at h
    cases hr : repo p with
    | none => simp [hr] at h; simp [h]
    | some v => simp [hr] at h

/-- Witness for C1 (amended) at a concrete state, repository tree and local
tree. -/
theorem initialize_bootstrap_from_remote_w :
    initializeTrace ⟨true, false, true⟩ CloneResult.clonedNonEmpty
        = [InitAction.privacyCheck, InitAction.openRepo,
           InitAction.forceCopyFromRepo, InitAction.writeMarker]
      ∧ InitAction.pushRemote
          ∉ initializeTrace ⟨true, false, true⟩ CloneResult.clonedNonEmpty
      ∧ ((fun q => if q = "settings.json".data then some "a1" else none)
            "settings.json".data = some "a1" →
          copyFromRepositoryForce
            (fun q => if q = "settings.json".data then some "a1" else none)
            (fun _ => some "local") "settings.json".data = some "a1")
      ∧ (copyFromRepositoryForce
            (fun q => if q = "settings.json".data then some "a1" else none)
            (fun _ => some "local") "settings.json".data = none →
          (fun _ : Path => some "local") "settings.json".data = none) :=
  initialize_bootstrap_from_remote ⟨true, false, true⟩ CloneResult.clonedNonEmpty
    (fun q => if q = "settings.json".data then some "a1" else none)
    (fun _ => some "local") "settings.json".data "a1" rfl rfl

/-- Claim C9: Clone first removes any directory at the working-copy path
wholesale — the final state never depends on what was there — and when the
clone then fails, the directory is left freshly emptied, the previous
working copy destroyed. -/
theorem clone_removes_existing_dir (pre : DirTree) (preOther : Option DirTree)
    (fetch : Except String DirTree) :
    cloneFS (some pre) fetch = cloneFS preOther fetch
      ∧ (cloneFS (some pre) (Except.error "failed to clone repository")).1 = some [] := by
  refine ⟨?_, rfl⟩
  cases preOther with
  | none => cases fetch <;> rfl
  | some t => cases fetch <;> rfl

/-- Claim C7, the code evaluated at the failing input: with every clone
attempt failing generically, the delays the retry loop sleeps are 2, 4, 6,
8 seconds — linear in the attempt number — which differ from the
exponential-backoff schedule (base 2 s, cap 10 s) the claim and the
function's own comments describe; the at-most-5-attempts budget and the
empty-remote bootstrap during a retry do hold. -/
theorem clone_backoff_linear_not_exponential :
    (retryCloneWithBackoff (fun _ => CloneOutcome.otherError)).2 = [2, 4, 6, 8]
      ∧ List.map expBackoffDelaySpec [1, 2, 3, 4] = [2, 4, 8, 10]
      ∧ (retryCloneWithBackoff (fun _ => CloneOutcome.otherError)).2
          ≠ List.map expBackoffDelaySpec [1, 2, 3, 4]
      ∧ (retryCloneWithBackoff (fun _ => CloneOutcome.otherError)).1 = RetryResult.failed
      ∧ (retryCloneWithBackoff
            (fun k => if k = 3 then CloneOutcome.emptyRemote else CloneOutcome.otherError)).1
          = RetryResult.bootstrapped 3 := by
  refine ⟨by decide, by decide, by decide, by decide, by decide⟩

/-- Claim C8: validate rejects every configuration whose debounce duration
is under 10 seconds — so Load returns no Config for them — and the debounce
check never fires for a configuration with debounce of at least 10
seconds. -/
theorem validate_debounce_gate (cfg : Config) :
    (cfg.debounceTime < 10 * goSecond → (validate cfg).isOk = false)
    ∧ (10 * goSecond ≤ cfg.debounceTime →
        validate cfg ≠ Except.error ConfigError.debounceTooShort) := by
  constructor
  · intro h
    unfold validate
    repeat' split
    all_goals simp_all [Except.isOk, Except.toBool]
  · intro h
    unfold validate
    repeat' split
    all_goals try simp_all
    all_goals simp only [goSecond] at *
    all_goals omega

/-- Witness for C8: a configuration with a 5-second debounce is rejected,
and one with a 10-second debounce passes the debounce check. -/
theorem validate_debounce_gate_w :
    ((5 * goSecond < 10 * goSecond)
      ∧ (validate ⟨"u", "lp", "main", "cp", 1, 1, 5 * goSecond, "newer"⟩).isOk = false)
    ∧ ((10 * goSecond ≤ 10 * goSecond)
      ∧ validate ⟨"u", "lp", "main", "cp", 1, 1, 10 * goSecond, "newer"⟩
          ≠ Except.error ConfigError.debounceTooShort) :=
  ⟨⟨by decide,
    (validate_debounce_gate ⟨"u", "lp", "main", "cp", 1, 1, 5 * goSecond, "newer"⟩).1
      (by decide)⟩,
   ⟨by decide,
    (validate_debounce_gate ⟨"u", "lp", "main", "cp", 1, 1, 10 * goSecond, "newer"⟩).2
      (by decide)⟩⟩

/-- Claim C10: once a hash for a path has been computed through the worker
pool and stored in the cache, every later request for that path returns the
stored value and leaves the cache unchanged — whatever the file's content
has become, even unreadable — so two hash calls for the same path agree
regardless of intervening writes. -/
theorem hash_cache_sticky (hashFn : String → String)
    (cache : List (String × String)) (p d : String)
    (content2 : Except HashErr String) (full2 : Bool)
    (hmiss : List.lookup p cache = none) :
    (calculateFileHash hashFn cache p (Except.ok d) false).1 = Except.ok (hashFn d)
    ∧ List.lookup p (calculateFileHash hashFn cache p (Except.ok d) false).2
        = some (hashFn d)
    ∧ calculateFileHash hashFn
        (calculateFileHash hashFn cache p (Except.ok d) false).2 p content2 full2
        = (Except.ok (hashFn d),
           (calculateFileHash hashFn cache p (Except.ok d) false).2) := by
  simp [calculateFileHash, hmiss, List.lookup]

/-- Witness for C10: the hash of "a" is computed once on content "x",
cached, and a second call — the file now unreadable — still returns the
cached value. -/
theorem hash_cache_sticky_w :
    (calculateFileHash (fun s => s) [] "a" (Except.ok "x") false).1 = Except.ok "x"
    ∧ List.lookup "a" (calculateFileHash (fun s => s) [] "a" (Except.ok "x") false).2
        = some "x"
    ∧ calculateFileHash (fun s => s)
        (calculateFileHash (fun s => s) [] "a" (Except.ok "x") false).2 "a"
        (Except.error HashErr.unreadable) false
        = (Except.ok "x",
           (calculateFileHash (fun s => s) [] "a" (Except.ok "x") false).2) :=
  hash_cache_sticky (fun s => s) [] "a" "x" (Except.error HashErr.unreadable) false rfl

end CursorSync
